import Mathlib

/-!
Verification of the CareerFlow hiring-relevance classification and
provider-synchronization pipeline.

The definitions below are a shallow embedding of the Python sources
`backend/app/services/email_filtering_service.py`,
`backend/app/services/google_api_service.py` and
`backend/app/routes/emails.py`.  Python strings are modelled by `String`
(character lists), Python floats by `ℚ` (all arithmetic in the pipeline is
on decimal literals, so exact rationals are faithful), Python dictionaries
with optional keys by structures with `Option` fields, and behaviour of the
external completion service / persistence layer by explicit parameters.
-/

namespace CareerFlow

/-- Python `str.lower()` (ASCII case mapping). -/
def pyLower (s : String) : String := String.mk (s.data.map Char.toLower)

/-- Python `str.upper()` (ASCII case mapping). -/
def pyUpper (s : String) : String := String.mk (s.data.map Char.toUpper)

/-- Python `str.strip()`: remove leading and trailing whitespace. -/
def pyStrip (s : String) : String :=
  String.mk (((s.data.dropWhile Char.isWhitespace).reverse.dropWhile Char.isWhitespace).reverse)

/-- Substring test on character lists: `needle` occurs somewhere in `hay`. -/
def isSubstr (needle : List Char) : List Char → Bool
  | [] => needle.isEmpty
  | c :: rest => needle.isPrefixOf (c :: rest) || isSubstr needle rest

/-- Python `needle in hay` for strings. -/
def pyIn (needle hay : String) : Bool := isSubstr needle.data hay.data

/-- Python `hay.count(needle)` for a nonempty needle: number of
non-overlapping occurrences, scanning left to right.  Structural recursion
on a fuel bounded by the text length (each step consumes at least one
character, so the fuel never runs out). -/
def countOccAux (needle : List Char) : Nat → List Char → Nat
  | 0, _ => 0
  | _, [] => 0
  | fuel + 1, c :: rest =>
    if needle ≠ [] ∧ needle.isPrefixOf (c :: rest) then
      1 + countOccAux needle fuel (rest.drop (needle.length - 1))
    else
      countOccAux needle fuel rest

/-- Python `hay.count(needle)` on character lists. -/
def countOcc (needle hay : List Char) : Nat := countOccAux needle hay.length hay

/-- Python `hay.count(needle)` on strings. -/
def pyCount (needle hay : String) : Nat := countOcc needle.data hay.data

/-- Python `str.isupper()`: at least one cased character and no lowercase
cased character (ASCII case model). -/
def pyIsUpper (s : String) : Bool :=
  s.data.any (fun c => c.isUpper || c.isLower) && s.data.all (fun c => !c.isLower)

/-- Python `sender_email.split('@')[1]`: the segment after the first `'@'`
(defined when `'@'` occurs; otherwise the empty string stands in). -/
def domainAfterAt (s : String) : String :=
  String.mk (((s.data.splitOn '@').getD 1 []))

/-- The email categories of `models/email.py` (`EmailCategory`). -/
inductive EmailCategory
  | JOB_APPLICATION
  | INTERVIEW_INVITATION
  | REJECTION
  | OFFER
  | RECRUITER_OUTREACH
  | FOLLOW_UP
  | OTHER
  deriving DecidableEq

/-- The email statuses of `models/email.py` (`EmailStatus`). -/
inductive EmailStatus
  | UNREAD
  | READ
  | DISCARDED
  | ARCHIVED
  deriving DecidableEq

/-- The email priorities of `models/email.py` (`EmailPriority`). -/
inductive EmailPriority
  | LOW
  | MEDIUM
  | HIGH
  deriving DecidableEq

/-- The provider-shaped email record handed to the pipeline
(`email_data` dictionary; `date_received` abstracted to a number). -/
structure EmailData where
  id : String
  threadId : String
  subject : String
  senderName : String
  senderEmail : String
  recipientEmail : String
  bodyText : String
  bodyHtml : String
  dateReceived : Nat
  labels : List String
  deriving DecidableEq

/-- `hiring_keywords['high_confidence']` of `EmailFilteringService.__init__`. -/
def hiringKeywordsHigh : List String :=
  ["interview", "job offer", "position", "recruiter", "hiring manager",
   "job opportunity", "application", "resume", "cv", "background check",
   "onboarding", "salary", "compensation", "offer letter", "contract",
   "start date", "first day", "orientation", "team meeting",
   "technical assessment", "coding challenge", "take home test",
   "phone screen", "video interview", "in-person interview",
   "final round", "reference check", "drug test", "employment",
   "join our team", "congratulations", "we would like to offer",
   "next steps", "feedback", "thank you for interviewing"]

/-- `hiring_keywords['medium_confidence']` of `EmailFilteringService.__init__`. -/
def hiringKeywordsMedium : List String :=
  ["opportunity", "career", "talent", "candidate", "screening",
   "assessment", "discussion", "chat", "call", "meeting",
   "role", "position available", "opening", "vacancy",
   "human resources", "hr", "people team", "talent acquisition"]

/-- `hiring_keywords['low_confidence']` of `EmailFilteringService.__init__`. -/
def hiringKeywordsLow : List String :=
  ["professional", "network", "connect", "linkedin",
   "introduction", "referral", "recommendation"]

/-- `recruiter_domains` of `EmailFilteringService.__init__`. -/
def recruiterDomains : List String :=
  ["linkedin.com", "indeed.com", "glassdoor.com", "monster.com",
   "ziprecruiter.com", "careerbuilder.com", "dice.com",
   "angellist.com", "wellfound.com", "hired.com", "triplebyte.com",
   "toptal.com", "upwork.com", "freelancer.com"]

/-- `category_mapping` of `EmailFilteringService.__init__`: free-text
category string to the fixed enum, unknown strings to `OTHER`
(`category_mapping.get(s, 'OTHER')`). -/
def categoryMapping (s : String) : EmailCategory :=
  if s = "job_application" then .JOB_APPLICATION
  else if s = "interview_invitation" then .INTERVIEW_INVITATION
  else if s = "rejection" then .REJECTION
  else if s = "offer" then .OFFER
  else if s = "recruiter_outreach" then .RECRUITER_OUTREACH
  else if s = "follow_up" then .FOLLOW_UP
  else if s = "other" then .OTHER
  else .OTHER

/-- `EmailFilteringService._infer_category_from_keywords`: first-match-wins
chain of conditionals over the lower-cased text. -/
def inferCategoryFromKeywords (textContent : String) : EmailCategory :=
  if ["interview", "schedule", "meeting", "call"].any (fun w => pyIn w textContent) then
    .INTERVIEW_INVITATION
  else if ["offer", "congratulations", "pleased to offer"].any (fun w => pyIn w textContent) then
    .OFFER
  else if ["unfortunately", "not moving forward", "different direction"].any
      (fun w => pyIn w textContent) then
    .REJECTION
  else if ["follow up", "checking in", "update"].any (fun w => pyIn w textContent) then
    .FOLLOW_UP
  else if ["recruiter", "opportunity", "interested in"].any (fun w => pyIn w textContent) then
    .RECRUITER_OUTREACH
  else if ["application", "applied", "position"].any (fun w => pyIn w textContent) then
    .JOB_APPLICATION
  else
    .OTHER

/-- The ordered rule list behind `_infer_category_from_keywords`:
`(word list, category)` pairs in source order. -/
def categoryRules : List (List String × EmailCategory) :=
  [(["interview", "schedule", "meeting", "call"], .INTERVIEW_INVITATION),
   (["offer", "congratulations", "pleased to offer"], .OFFER),
   (["unfortunately", "not moving forward", "different direction"], .REJECTION),
   (["follow up", "checking in", "update"], .FOLLOW_UP),
   (["recruiter", "opportunity", "interested in"], .RECRUITER_OUTREACH),
   (["application", "applied", "position"], .JOB_APPLICATION)]

/-- First-match-wins evaluation of an ordered rule list. -/
def firstMatchCategory (rules : List (List String × EmailCategory)) (textContent : String) :
    EmailCategory :=
  match rules with
  | [] => .OTHER
  | (ws, cat) :: rest =>
    if ws.any (fun w => pyIn w textContent) then cat
    else firstMatchCategory rest textContent

/-- Result dictionary of `EmailFilteringService._analyze_keywords`. -/
structure KeywordAnalysis where
  is_hiring_related : Bool
  confidence_score : ℚ
  category : EmailCategory
  high : Nat
  medium : Nat
  low : Nat
  domain_boost : Bool
  deriving DecidableEq

/-- `EmailFilteringService._analyze_keywords`. -/
def analyzeKeywords (e : EmailData) : KeywordAnalysis :=
  let textContent := pyLower (e.subject ++ " " ++ e.bodyText)
  let highMatches := (hiringKeywordsHigh.filter (fun k => pyIn k textContent)).length
  let mediumMatches := (hiringKeywordsMedium.filter (fun k => pyIn k textContent)).length
  let lowMatches := (hiringKeywordsLow.filter (fun k => pyIn k textContent)).length
  let senderEmail := pyLower e.senderEmail
  let domainBoost : ℚ :=
    if recruiterDomains.any (fun d => pyIn d senderEmail) then 2/10 else 0
  let confidenceScore : ℚ :=
    min 1 ((highMatches : ℚ) * (3/10) + (mediumMatches : ℚ) * (15/100)
      + (lowMatches : ℚ) * (5/100) + domainBoost)
  { is_hiring_related := confidenceScore > 1/2
    confidence_score := confidenceScore
    category := inferCategoryFromKeywords textContent
    high := highMatches
    medium := mediumMatches
    low := lowMatches
    domain_boost := domainBoost > 0 }

/-- `spam_phrases` of `EmailFilteringService._analyze_spam_likelihood`. -/
def spamPhrases : List String :=
  ["make money fast", "easy money", "get rich quick", "work from home scam",
   "no experience required", "earn $", "guaranteed income", "click here now",
   "limited time offer", "act now", "urgent response required", "limited time",
   "congratulations you have won", "claim your prize", "verify account",
   "mystery shopper", "envelope stuffing", "data entry from home",
   "high paying job with no experience", "earn thousands weekly",
   "payment processing", "financial transaction", "money transfer",
   "administrative assistant position", "personal assistant from home",
   "update your information", "confirm your identity", "suspended account",
   "click this link", "download attachment", "install software",
   "this is not spam", "remove me from list", "unsubscribe",
   "special offer", "incredible deal", "once in a lifetime",
   "opportunity of a lifetime", "risk-free", "money back guarantee"]

/-- `suspicious_domains` of `_analyze_spam_likelihood`. -/
def suspiciousDomains : List String :=
  ["tempmail", "guerrillamail", "10minutemail", "mailinator",
   "throwaway", "disposable", "temp-mail"]

/-- `spoofed_domains` of `_analyze_spam_likelihood`. -/
def spoofedDomains : List String :=
  ["gmai1.com", "yahool.com", "hotmai1.com", "outlok.com",
   "linkedln.com", "goog1e.com", "microsof.com"]

/-- `generic_subjects` of `_analyze_spam_likelihood`. -/
def genericSubjects : List String :=
  ["urgent", "important", "please read", "hello", "hi there",
   "job offer", "employment opportunity", "work from home"]

/-- `suspicious_names` of `_analyze_spam_likelihood`. -/
def suspiciousNames : List String :=
  ["admin", "noreply", "automated", "system", "robot",
   "hr department", "hiring team", "recruitment"]

/-- The additive spam score of `_analyze_spam_likelihood`: the sum of the
fixed increments of every triggered signal, in source order.  All variables
are lower-cased first as in the source; the increment conditions do not
read the running score, so the sequential `+=` of the source is exactly
this sum. -/
def spamScore (e : EmailData) : ℚ :=
  let subject := pyLower e.subject
  let bodyText := pyLower e.bodyText
  let senderEmail := pyLower e.senderEmail
  let senderName := pyLower e.senderName
  let content := subject ++ " " ++ bodyText
  let hasAt := pyIn "@" senderEmail
  let domain := if hasAt then domainAfterAt senderEmail else ""
  (if e.labels.contains "SPAM" then 2 else 0)
  + ((spamPhrases.filter (fun p => pyIn p content)).length : ℚ)
  + (if senderEmail.isEmpty || !hasAt then 1 else 0)
  + (if !(senderEmail.isEmpty || !hasAt)
        && suspiciousDomains.any (fun d => pyIn d domain) then 2 else 0)
  + (if !(senderEmail.isEmpty || !hasAt)
        && spoofedDomains.contains domain then 3 else 0)
  + (if !subject.isEmpty && (pyIsUpper subject && subject.length > 10) then 1 else 0)
  + (if !subject.isEmpty && (pyCount "!" subject > 2 || pyCount "?" subject > 2) then 1 else 0)
  + (if !subject.isEmpty && genericSubjects.any (fun g => pyIn g subject) then 1/2 else 0)
  + (if !bodyText.isEmpty && bodyText.length < 50 then 1 else 0)
  + (if !bodyText.isEmpty
        && pyCount "$" bodyText + pyCount "€" bodyText + pyCount "£" bodyText > 3 then 1 else 0)
  + (if !bodyText.isEmpty
        && pyCount "http" bodyText + pyCount "www." bodyText > 5 then 1 else 0)
  + (if !senderName.isEmpty && suspiciousNames.any (fun s => pyIn s senderName) then 1/2 else 0)

/-- Result dictionary of `EmailFilteringService._analyze_spam_likelihood`
(the fields the rest of the pipeline reads). -/
structure SpamAnalysis where
  is_likely_spam : Bool
  spam_score : ℚ
  spam_confidence : ℚ
  deriving DecidableEq

/-- `EmailFilteringService._analyze_spam_likelihood`. -/
def analyzeSpamLikelihood (e : EmailData) : SpamAnalysis :=
  let score := spamScore e
  { is_likely_spam := score ≥ 3
    spam_score := score
    spam_confidence := min (score / 6) 1 }

/-- The JSON object a successful completion call parses to
(`json.loads(result_text)` in `_ai_analyze_email`); every key may be
absent. -/
structure AIJson where
  is_hiring_related : Option Bool
  confidence_score : Option ℚ
  category : Option String
  company_name : Option String
  job_title : Option String
  priority : Option String
  key_details : Option (List String)
  next_action_required : Option String
  spam_likelihood : Option String
  legitimacy_indicators : Option (List String)
  red_flags : Option (List String)
  deriving DecidableEq

/-- Outcome of one completion call as observed by `_ai_analyze_email`:
the request raised (network error, timeout, or an ill-typed field made
validation raise), the returned text was not valid JSON
(`json.JSONDecodeError`), or it parsed to a JSON object. -/
inductive AIOutcome
  | raised
  | notJson
  | json (j : AIJson)
  deriving DecidableEq

/-- Dictionary returned by `_ai_analyze_email` (and `_default_ai_result`):
after normalization `confidence_score`, `category` and `analysis_method`
are always present; the other keys may still be absent. -/
structure AIResult where
  is_hiring_related : Option Bool
  confidence_score : ℚ
  category : EmailCategory
  company_name : Option String
  job_title : Option String
  priority : Option String
  key_details : Option (List String)
  next_action_required : Option String
  spam_likelihood : Option String
  legitimacy_indicators : Option (List String)
  red_flags : Option (List String)
  analysis_method : String
  deriving DecidableEq

/-- `EmailFilteringService._default_ai_result`. -/
def defaultAIResult : AIResult :=
  { is_hiring_related := some false
    confidence_score := 1/2
    category := .OTHER
    company_name := none
    job_title := none
    priority := some "medium"
    key_details := some []
    next_action_required := none
    spam_likelihood := some "medium"
    legitimacy_indicators := some []
    red_flags := some []
    analysis_method := "ai_fallback" }

/-- `EmailFilteringService._ai_analyze_email`: on a parsed JSON object,
clamp `confidence_score` to [0,1] (default 0.5 when absent) and map the
category string through `category_mapping` (default key `'other'`); on any
raise or JSON decode failure return `_default_ai_result()`. -/
def aiAnalyzeEmail (outcome : AIOutcome) : AIResult :=
  match outcome with
  | .raised => defaultAIResult
  | .notJson => defaultAIResult
  | .json j =>
    { is_hiring_related := j.is_hiring_related
      confidence_score := max 0 (min 1 (j.confidence_score.getD (1/2)))
      category := categoryMapping (j.category.getD "other")
      company_name := j.company_name
      job_title := j.job_title
      priority := j.priority
      key_details := j.key_details
      next_action_required := j.next_action_required
      spam_likelihood := j.spam_likelihood
      legitimacy_indicators := j.legitimacy_indicators
      red_flags := j.red_flags
      analysis_method := "ai" }

/-- The classification dictionary `analyze_email` hands to the sync loop
(keys that may be absent in some return paths are `Option`). -/
structure AnalysisResult where
  is_hiring_related : Bool
  confidence_score : ℚ
  category : EmailCategory
  company_name : Option String
  job_title : Option String
  priority : Option String
  key_details : Option (List String)
  spam_likelihood : Option String
  ai_analysis_performed : Option Bool
  analysis_method : String
  deriving DecidableEq

/-- The fixed short-circuit result `analyze_email` returns when
`spam_analysis['is_likely_spam']` holds. -/
def spamFilteredResult : AnalysisResult :=
  { is_hiring_related := false
    confidence_score := 1/10
    category := .OTHER
    company_name := none
    job_title := none
    priority := none
    key_details := none
    spam_likelihood := none
    ai_analysis_performed := none
    analysis_method := "spam_filtered" }

/-- The keyword-only return path of `analyze_email` (keyword dictionary
plus `ai_analysis_performed = False`). -/
def keywordOnlyResult (kw : KeywordAnalysis) : AnalysisResult :=
  { is_hiring_related := kw.is_hiring_related
    confidence_score := kw.confidence_score
    category := kw.category
    company_name := none
    job_title := none
    priority := none
    key_details := none
    spam_likelihood := none
    ai_analysis_performed := some false
    analysis_method := "keyword" }

/-- `EmailFilteringService._combine_analyses`. -/
def combineAnalyses (kw : KeywordAnalysis) (ai : AIResult) : AnalysisResult :=
  { is_hiring_related := ai.is_hiring_related.getD kw.is_hiring_related
    confidence_score := kw.confidence_score * (3/10) + ai.confidence_score * (7/10)
    category := ai.category
    company_name := ai.company_name
    job_title := ai.job_title
    priority := some (ai.priority.getD "medium")
    key_details := some (ai.key_details.getD [])
    spam_likelihood := some (ai.spam_likelihood.getD "low")
    ai_analysis_performed := some true
    analysis_method := "combined" }

/-- `EmailFilteringService.analyze_email`, with the completion service's
behaviour passed in as `ai : EmailData → AIOutcome` (one outcome per call
input, as `_ai_analyze_email` observes it). -/
def analyzeEmail (ai : EmailData → AIOutcome) (e : EmailData) : AnalysisResult :=
  let spamAnalysis := analyzeSpamLikelihood e
  if spamAnalysis.is_likely_spam then
    spamFilteredResult
  else
    let keywordAnalysis := analyzeKeywords e
    if keywordAnalysis.confidence_score > 3/10 then
      combineAnalyses keywordAnalysis (aiAnalyzeEmail (ai e))
    else
      keywordOnlyResult keywordAnalysis

/-- Python regex `\w` restricted to ASCII: letters, digits, underscore. -/
def isWordChar (c : Char) : Bool := c.isAlphanum || c = '_'

/-- A character of the class `[A-Za-z0-9_-]`. -/
def isTokenChar (c : Char) : Bool := isWordChar c || c = '-'

/-- `re.findall` for one pattern: scan left to right, at each position try
`tryMatch` (which returns the greedy match length at that position); on a
match record its length and continue after it, otherwise advance one
character.  Match lengths are returned in order. -/
def scanMatchesAux (tryMatch : List Char → Option Nat) : Nat → List Char → List Nat
  | 0, _ => []
  | _, [] => []
  | fuel + 1, c :: rest =>
    match tryMatch (c :: rest) with
    | some n =>
      if n = 0 then scanMatchesAux tryMatch fuel rest
      else n :: scanMatchesAux tryMatch fuel ((c :: rest).drop n)
    | none => scanMatchesAux tryMatch fuel rest

/-- The scan over a whole text (fuel bounded by its length, which each
step strictly decreases). -/
def scanMatches (tryMatch : List Char → Option Nat) (cs : List Char) : List Nat :=
  scanMatchesAux tryMatch cs.length cs

/-- Greedy match of `https?://[^\s]{100,}` at the start of the text. -/
def matchLongUrl (cs : List Char) : Option Nat :=
  let scheme : Option Nat :=
    if ("https://").data.isPrefixOf cs then some 8
    else if ("http://").data.isPrefixOf cs then some 7
    else none
  match scheme with
  | none => none
  | some k =>
    let run := ((cs.drop k).takeWhile (fun c => !c.isWhitespace)).length
    if run ≥ 100 then some (k + run) else none

/-- Match of `\b[A-Za-z0-9_-]{40,}\b` at the start of the text, modelled as
a maximal run of class characters of length at least 40 (the scan tries
run starts first and skips whole matches, so only maximal runs fire). -/
def matchLongToken (cs : List Char) : Option Nat :=
  let run := (cs.takeWhile isTokenChar).length
  if run ≥ 40 then some run else none

/-- Greedy match of `utm_\w+` at the start of the text. -/
def matchUtm (cs : List Char) : Option Nat :=
  if ("utm_").data.isPrefixOf cs then
    let run := ((cs.drop 4).takeWhile isWordChar).length
    if run ≥ 1 then some (4 + run) else none
  else none

/-- Greedy match of `tracking\w*` at the start of the text. -/
def matchTrackingWord (cs : List Char) : Option Nat :=
  if ("tracking").data.isPrefixOf cs then
    some (8 + ((cs.drop 8).takeWhile isWordChar).length)
  else none

/-- Match of `gclid|fbclid` at the start of the text. -/
def matchClickId (cs : List Char) : Option Nat :=
  if ("gclid").data.isPrefixOf cs then some 5
  else if ("fbclid").data.isPrefixOf cs then some 6
  else none

/-- The match lengths of the five `tracking_patterns` of
`GoogleAPIService._is_mostly_tracking_data` over `s`, concatenated in
pattern order. -/
def trackingMatchLens (s : String) : List Nat :=
  scanMatches matchLongUrl s.data ++ scanMatches matchLongToken s.data
    ++ scanMatches matchUtm s.data ++ scanMatches matchTrackingWord s.data
    ++ scanMatches matchClickId s.data

/-- `GoogleAPIService._is_mostly_tracking_data`: empty or trimmed length
below 50 is always tracking-heavy; otherwise tracking-heavy when the
matched characters exceed 30% of the total length or the match count
(case-insensitive, modelled by lower-casing) exceeds 10. -/
def isMostlyTrackingData (text : String) : Bool :=
  if text = "" ∨ (pyStrip text).length < 50 then true
  else
    let trackingMatches := (trackingMatchLens (pyLower text)).length
    let trackingChars : Nat := (trackingMatchLens text).foldl (· + ·) 0
    -- `tracking_chars > total_chars * 0.3` over exact arithmetic, cleared of
    -- the denominator (both sides are integers).
    decide (10 * trackingChars > 3 * text.length) || decide (trackingMatches > 10)

/-- The candidate-selection loop of `GoogleAPIService._extract_email_body`:
starting from the empty string, replace the current best by any candidate
whose trimmed length is strictly larger and which is not mostly tracking
data. -/
def candidateStep (best t : String) : String :=
  if (pyStrip best).length < (pyStrip t).length ∧ isMostlyTrackingData t = false then t
  else best

/-- The loop itself, starting from the empty string. -/
def pickBestCandidate (parts : List String) : String :=
  parts.foldl candidateStep ""

/-- `text_body = best_text if best_text else text_parts[0]` of
`_extract_email_body`, applied to the kept candidate list (empty list gives
the empty string, as when no part passed the 20-character threshold). -/
def selectBodyText (parts : List String) : String :=
  match parts with
  | [] => ""
  | p0 :: _ =>
    let best := pickBestCandidate parts
    if best ≠ "" then best else p0

/-- `GoogleAPIService._extract_email_body` from the kept plain-text and
HTML-derived candidate lists: the same selection rule on each list, then
`.strip()` on both results. -/
def extractEmailBody (textParts htmlParts : List String) : String × String :=
  (pyStrip (selectBodyText textParts), pyStrip (selectBodyText htmlParts))

/-- The snippet fallback of `GoogleAPIService._get_email_details`: when the
extracted body is empty, trims below 20 characters, or is mostly tracking
data, substitute the provider snippet when that snippet is nonempty and
trims above 20 characters. -/
def snippetFallback (bodyText snippet : String) : String :=
  if bodyText = "" ∨ (pyStrip bodyText).length < 20 ∨ isMostlyTrackingData bodyText then
    if snippet ≠ "" ∧ (pyStrip snippet).length > 20 then snippet else bodyText
  else bodyText

/-- `EmailPriority[name]` (Python `Enum` lookup by member name): `None`
models the `KeyError` the source raises on an unknown name. -/
def emailPriorityOfName (s : String) : Option EmailPriority :=
  if s = "LOW" then some .LOW
  else if s = "MEDIUM" then some .MEDIUM
  else if s = "HIGH" then some .HIGH
  else none

/-- One row of the `emails` table as written by
`sync_emails_background` (`models/email.py`; timestamps abstracted to
numbers, the JSON-encoded columns kept as lists, the
stringified confidence kept as the underlying rational). -/
structure PersistedEmail where
  id : String
  thread_id : String
  subject : String
  sender_name : String
  sender_email : String
  recipient_email : String
  body_text : String
  body_html : String
  date_received : Nat
  status : EmailStatus
  priority : EmailPriority
  category : EmailCategory
  is_hiring_related : Bool
  confidence_score : ℚ
  labels : List String
  company_name : Option String
  job_title : Option String
  notes : List String
  is_synced : Bool
  last_sync_at : Nat
  deriving DecidableEq

/-- The persistence store of one sync invocation (the `emails` table as a
row list). -/
abbrev Store := List PersistedEmail

/-- `db.query(Email).filter(Email.id == i).first()`. -/
def dbLookup (st : Store) (i : String) : Option PersistedEmail :=
  List.find? (fun r => r.id = i) st

/-- In-place mutation of the looked-up row: replace the first row with this
id (every field of the replacement is written except that `id` itself is
identical anyway, matching the `key != 'id'` guard of the source). -/
def dbUpdateFirst : Store → String → PersistedEmail → Store
  | [], _, _ => []
  | r :: rest, i, row =>
    if r.id = i then row :: rest else r :: dbUpdateFirst rest i row

/-- `db.add(new_email)` followed by the autoflushing query visibility:
the new row is appended. -/
def dbInsert (st : Store) (row : PersistedEmail) : Store := st ++ [row]

/-- The `email_data` dictionary built per record in
`sync_emails_background`, then turned into row fields.  Priority is
`EmailPriority[analysis.get('priority', 'medium').upper()]`; an unknown
priority string raises `KeyError` (modelled by `none`), which the
per-record handler catches.  All category strings the classifier produces
are valid `EmailCategory` member names, so that lookup is the identity
here. -/
def buildRow (now : Nat) (g : EmailData) (a : AnalysisResult) : Option PersistedEmail :=
  (emailPriorityOfName (pyUpper (a.priority.getD "medium"))).map (fun prio =>
    { id := g.id
      thread_id := g.threadId
      subject := g.subject
      sender_name := g.senderName
      sender_email := g.senderEmail
      recipient_email := g.recipientEmail
      body_text := g.bodyText
      body_html := g.bodyHtml
      date_received := g.dateReceived
      status := .UNREAD
      priority := prio
      category := a.category
      is_hiring_related := a.is_hiring_related
      confidence_score := a.confidence_score
      labels := g.labels
      company_name := a.company_name
      job_title := a.job_title
      notes := a.key_details.getD []
      is_synced := true
      last_sync_at := now })

/-- The mutable state of one run of `sync_emails_background`. -/
structure SyncState where
  store : Store
  synced : Nat
  updated : Nat

/-- One iteration of the loop of `sync_emails_background` over one Gmail
record: look up by external id; skip when found and not forcing;
otherwise classify and build the row, updating in place or inserting.
`classify` may fail (any exception out of the analysis), and `buildRow`
may fail (`KeyError` on the priority name); both are caught by the
per-record `except` which leaves the state unchanged and continues. -/
def syncStep (classify : EmailData → Except Unit AnalysisResult) (force : Bool) (now : Nat)
    (s : SyncState) (g : EmailData) : SyncState :=
  match dbLookup s.store g.id with
  | some _ =>
    if !force then s
    else
      match classify g with
      | .error _ => s
      | .ok a =>
        match buildRow now g a with
        | none => s
        | some row =>
          { store := dbUpdateFirst s.store g.id row
            synced := s.synced
            updated := s.updated + 1 }
  | none =>
    match classify g with
    | .error _ => s
    | .ok a =>
      match buildRow now g a with
      | none => s
      | some row =>
        { store := dbInsert s.store row
          synced := s.synced + 1
          updated := s.updated }

/-- The record loop of `sync_emails_background`: fold the per-record step
over the fetched batch, starting from zero counts.  (The flush-every-10
commits only batch the writes; visibility within the run is immediate, as
in the session-backed source.) -/
def syncEmails (classify : EmailData → Except Unit AnalysisResult) (force : Bool) (now : Nat)
    (store : Store) (batch : List EmailData) : SyncState :=
  batch.foldl (syncStep classify force now) { store := store, synced := 0, updated := 0 }

/-- A record whose per-record processing deterministically fails: either
the classification raises, or the built field set raises `KeyError` on the
priority name. -/
def recordStuck (classify : EmailData → Except Unit AnalysisResult) (g : EmailData) : Prop :=
  classify g = .error ()
  ∨ ∀ a, classify g = .ok a → emailPriorityOfName (pyUpper (a.priority.getD "medium")) = none

/-- A record a non-forcing sync pass will no longer touch: its external id
is already stored, or its processing deterministically fails. -/
def recordSettled (classify : EmailData → Except Unit AnalysisResult) (store : Store)
    (g : EmailData) : Prop :=
  (dbLookup store g.id).isSome = true ∨ recordStuck classify g

/-! Concrete witness data. -/

/-- A minimal spam-scoring email: `SPAM` label (+2) and a nonempty body
below 50 characters (+1) reach the threshold 3. -/
def wSpamEmail : EmailData :=
  { id := "s1", threadId := "t1", subject := "", senderName := "",
    senderEmail := "a@b.com", recipientEmail := "me@x.com",
    bodyText := "hello", bodyHtml := "", dateReceived := 0, labels := ["SPAM"] }

/-- A benign hiring email: spam score 0, one high keyword (`interview`)
and two medium keywords (`call`, `role`), so keyword confidence 0.6. -/
def wCleanEmail : EmailData :=
  { id := "c1", threadId := "t2", subject := "interview", senderName := "",
    senderEmail := "someone@acme.com", recipientEmail := "me@x.com",
    bodyText := "please give me a call tomorrow so we can discuss the role in detail",
    bodyHtml := "", dateReceived := 0, labels := [] }

/-- A persisted row whose status the user set to `READ`. -/
def wReadRow : PersistedEmail :=
  { id := "m1", thread_id := "t1", subject := "old subject", sender_name := "",
    sender_email := "a@b.com", recipient_email := "me@x.com", body_text := "old body",
    body_html := "", date_received := 1, status := .READ, priority := .LOW,
    category := .OTHER, is_hiring_related := false, confidence_score := 0,
    labels := [], company_name := none, job_title := none, notes := [],
    is_synced := true, last_sync_at := 1 }

/-- The same provider record fetched again on a later sync. -/
def wRawM1 : EmailData :=
  { id := "m1", threadId := "t1", subject := "new subject", senderName := "",
    senderEmail := "a@b.com", recipientEmail := "me@x.com",
    bodyText := "new body", bodyHtml := "", dateReceived := 2, labels := [] }

/-- A fixed classification result. -/
def wConstAnalysis : AnalysisResult :=
  { is_hiring_related := true, confidence_score := 9/10, category := .OFFER,
    company_name := none, job_title := none, priority := some "medium",
    key_details := none, spam_likelihood := none,
    ai_analysis_performed := some true, analysis_method := "combined" }

/-- A classifier stub that always succeeds with a fixed analysis. -/
def wConstClassify : EmailData → Except Unit AnalysisResult := fun _ => .ok wConstAnalysis

/-- A classifier stub that always raises. -/
def wFailClassify : EmailData → Except Unit AnalysisResult := fun _ => .error ()

/-- A record on which `wMixedClassify` raises. -/
def wBadRaw : EmailData :=
  { id := "bad", threadId := "t9", subject := "x", senderName := "",
    senderEmail := "x@y.com", recipientEmail := "me@x.com",
    bodyText := "y", bodyHtml := "", dateReceived := 3, labels := [] }

/-- A classifier stub that raises exactly on the record with id `bad`. -/
def wMixedClassify : EmailData → Except Unit AnalysisResult :=
  fun g => if g.id = "bad" then .error () else wConstClassify g

/-- The row a forced re-sync of `wRawM1` under `wConstClassify` writes at
time 7: every field rebuilt, the status reset to `UNREAD`. -/
def wUpdatedRow : PersistedEmail :=
  { id := "m1", thread_id := "t1", subject := "new subject", sender_name := "",
    sender_email := "a@b.com", recipient_email := "me@x.com", body_text := "new body",
    body_html := "", date_received := 2, status := .UNREAD, priority := .MEDIUM,
    category := .OFFER, is_hiring_related := true, confidence_score := 9/10,
    labels := [], company_name := none, job_title := none, notes := [],
    is_synced := true, last_sync_at := 7 }

/-! Helper lemmas. -/

lemma iteNonneg (c : Prop) [Decidable c] (k : ℚ) (hk : 0 ≤ k) :
    0 ≤ if c then k else 0 := by
  split
  · exact hk
  · exact le_refl 0

lemma spamScore_nonneg (e : EmailData) : 0 ≤ spamScore e := by
  simp only [spamScore]
  repeat' refine add_nonneg ?_ ?_
  all_goals first
    | exact Nat.cast_nonneg _
    | exact iteNonneg _ _ (by norm_num)

/-! Claim theorems. -/

/-- C6: for every input, the spam scorer satisfies
`is_likely_spam ↔ spam_score ≥ 3` and `confidence = min(spam_score/6, 1)`;
the score, a sum of non-negative increments, is non-negative, and the
confidence lies in [0,1]. -/
theorem spam_scorer_invariants (e : EmailData) :
    ((analyzeSpamLikelihood e).is_likely_spam = true ↔ 3 ≤ (analyzeSpamLikelihood e).spam_score)
    ∧ (analyzeSpamLikelihood e).spam_confidence
        = min ((analyzeSpamLikelihood e).spam_score / 6) 1
    ∧ 0 ≤ (analyzeSpamLikelihood e).spam_score
    ∧ 0 ≤ (analyzeSpamLikelihood e).spam_confidence
    ∧ (analyzeSpamLikelihood e).spam_confidence ≤ 1 := by
  have h0 := spamScore_nonneg e
  refine ⟨?_, rfl, h0, ?_, ?_⟩
  · simp [analyzeSpamLikelihood, ge_iff_le, decide_eq_true_iff]
  · exact le_min (div_nonneg h0 (by norm_num)) (by norm_num)
  · exact min_le_right _ _

/-- C5: the keyword scorer's confidence is
`min(1, 0.3·high + 0.15·medium + 0.05·low + boost)` where the counts are
the numbers of tier keywords occurring in the lower-cased subject+body,
`boost = 0.2` exactly when a known recruiter/job-board domain occurs in
the lower-cased sender address, `is_relevant ↔ confidence > 0.5`, and the
confidence lies in [0,1]. -/
theorem keyword_scorer_formula (e : EmailData) :
    (analyzeKeywords e).confidence_score
      = min 1 (((analyzeKeywords e).high : ℚ) * (3/10)
          + ((analyzeKeywords e).medium : ℚ) * (15/100)
          + ((analyzeKeywords e).low : ℚ) * (5/100)
          + (if recruiterDomains.any (fun d => pyIn d (pyLower e.senderEmail)) then 2/10 else 0))
    ∧ (analyzeKeywords e).high
        = (hiringKeywordsHigh.filter (fun k =>
            pyIn k (pyLower (e.subject ++ " " ++ e.bodyText)))).length
    ∧ (analyzeKeywords e).medium
        = (hiringKeywordsMedium.filter (fun k =>
            pyIn k (pyLower (e.subject ++ " " ++ e.bodyText)))).length
    ∧ (analyzeKeywords e).low
        = (hiringKeywordsLow.filter (fun k =>
            pyIn k (pyLower (e.subject ++ " " ++ e.bodyText)))).length
    ∧ ((analyzeKeywords e).is_hiring_related = true
        ↔ (analyzeKeywords e).confidence_score > 1/2)
    ∧ 0 ≤ (analyzeKeywords e).confidence_score
    ∧ (analyzeKeywords e).confidence_score ≤ 1 := by
  refine ⟨rfl, rfl, rfl, rfl, ?_, ?_, ?_⟩
  · simp [analyzeKeywords, decide_eq_true_iff]
  · refine le_min (by norm_num) ?_
    repeat' refine add_nonneg ?_ ?_
    all_goals first
      | exact mul_nonneg (Nat.cast_nonneg _) (by norm_num)
      | exact iteNonneg _ _ (by norm_num)
  · exact min_le_left _ _

/-- C7: category inference is the first-match-wins evaluation of the fixed
ordered rule list (interview, offer, rejection, follow-up, recruiter
outreach, application, else OTHER); it is a deterministic function of the
text, and any text containing `interview` (in particular one containing
both `interview` and `offer`) resolves to INTERVIEW_INVITATION. -/
theorem category_inference_first_match (t : String) (hi : pyIn "interview" t = true) :
    (∀ s, inferCategoryFromKeywords s = firstMatchCategory categoryRules s)
    ∧ inferCategoryFromKeywords t = .INTERVIEW_INVITATION
    ∧ ∀ s1 s2 : String, s1 = s2 → inferCategoryFromKeywords s1 = inferCategoryFromKeywords s2 := by
  refine ⟨fun s => rfl, ?_, fun s1 s2 h => by rw [h]⟩
  unfold inferCategoryFromKeywords
  rw [if_pos]
  simp only [List.any_cons, Bool.or_eq_true]
  exact Or.inl hi

/-- Witness for C7 at the text `"interview offer"`, which contains both an
interview keyword and an offer keyword. -/
theorem category_inference_first_match_witness :
    pyIn "interview" "interview offer" = true
    ∧ pyIn "offer" "interview offer" = true
    ∧ ((∀ s, inferCategoryFromKeywords s = firstMatchCategory categoryRules s)
        ∧ inferCategoryFromKeywords "interview offer" = .INTERVIEW_INVITATION
        ∧ ∀ s1 s2 : String, s1 = s2 →
            inferCategoryFromKeywords s1 = inferCategoryFromKeywords s2) :=
  ⟨by decide, by decide, category_inference_first_match "interview offer" (by decide)⟩

/-- C2: any input whose spam analysis flags `is_likely_spam` short-circuits
the classifier: the result is exactly the fixed
`{is_hiring_related: false, confidence: 0.1, category: OTHER,
method: spam_filtered}` dictionary, independent of the completion
service's behaviour (so the AI classifier is never consulted) and of the
keyword scorer's output. -/
theorem spam_short_circuit (ai ai2 : EmailData → AIOutcome) (e : EmailData)
    (h : (analyzeSpamLikelihood e).is_likely_spam = true) :
    analyzeEmail ai e = spamFilteredResult
    ∧ analyzeEmail ai e = analyzeEmail ai2 e
    ∧ (analyzeEmail ai e).is_hiring_related = false
    ∧ (analyzeEmail ai e).confidence_score = 1/10
    ∧ (analyzeEmail ai e).category = .OTHER
    ∧ (analyzeEmail ai e).analysis_method = "spam_filtered" := by
  have h1 : ∀ f : EmailData → AIOutcome, analyzeEmail f e = spamFilteredResult := by
    intro f
    simp only [analyzeEmail, h, if_true]
  exact ⟨h1 ai, (h1 ai).trans (h1 ai2).symm, by rw [h1 ai]; rfl, by rw [h1 ai]; rfl,
    by rw [h1 ai]; rfl, by rw [h1 ai]; rfl⟩

/-- Witness for C2: a concrete email (SPAM label, 5-character body) with
spam score 3 that short-circuits under any completion behaviour. -/
theorem spam_short_circuit_witness :
    (analyzeSpamLikelihood wSpamEmail).is_likely_spam = true
    ∧ (analyzeEmail (fun _ => .raised) wSpamEmail = spamFilteredResult
        ∧ analyzeEmail (fun _ => .raised) wSpamEmail = analyzeEmail (fun _ => .notJson) wSpamEmail
        ∧ (analyzeEmail (fun _ => .raised) wSpamEmail).is_hiring_related = false
        ∧ (analyzeEmail (fun _ => .raised) wSpamEmail).confidence_score = 1/10
        ∧ (analyzeEmail (fun _ => .raised) wSpamEmail).category = .OTHER
        ∧ (analyzeEmail (fun _ => .raised) wSpamEmail).analysis_method = "spam_filtered") := by
  have hph : (spamPhrases.filter (fun p =>
      pyIn p (pyLower wSpamEmail.subject ++ " " ++ pyLower wSpamEmail.bodyText))).length = 0 := by
    decide
  have hs : spamScore wSpamEmail = 3 := by
    simp +decide only [spamScore]
    rw [hph]
    norm_num
  have hw : (analyzeSpamLikelihood wSpamEmail).is_likely_spam = true := by
    simp only [analyzeSpamLikelihood, hs]
    norm_num
  exact ⟨hw, spam_short_circuit (fun _ => .raised) (fun _ => .notJson) wSpamEmail hw⟩

/-- C3: if the completion call raises/times out or returns text that is not
JSON, `_ai_analyze_email` returns the fixed default analysis
(`is_relevant=false, confidence=0.5, category=OTHER, priority=medium,
spam_likelihood=medium`) instead of propagating the failure, and the
overall pipeline (when the AI stage is reached) still returns a combined
result whose category is OTHER. -/
theorem ai_failure_degradation (ai : EmailData → AIOutcome) (e : EmailData)
    (hspam : (analyzeSpamLikelihood e).is_likely_spam = false)
    (hkw : (analyzeKeywords e).confidence_score > 3/10)
    (hfail : ai e = .raised ∨ ai e = .notJson) :
    aiAnalyzeEmail (ai e) = defaultAIResult
    ∧ defaultAIResult.is_hiring_related = some false
    ∧ defaultAIResult.confidence_score = 1/2
    ∧ defaultAIResult.category = .OTHER
    ∧ defaultAIResult.priority = some "medium"
    ∧ defaultAIResult.spam_likelihood = some "medium"
    ∧ analyzeEmail ai e = combineAnalyses (analyzeKeywords e) defaultAIResult
    ∧ (analyzeEmail ai e).category = .OTHER
    ∧ (analyzeEmail ai e).is_hiring_related = false
    ∧ (analyzeEmail ai e).confidence_score
        = (analyzeKeywords e).confidence_score * (3/10) + (1/2) * (7/10)
    ∧ (analyzeEmail ai e).analysis_method = "combined" := by
  have hd : aiAnalyzeEmail (ai e) = defaultAIResult := by
    rcases hfail with h | h <;> rw [h]
    all_goals rfl
  have hp : analyzeEmail ai e = combineAnalyses (analyzeKeywords e) defaultAIResult := by
    simp only [analyzeEmail, hspam, Bool.false_eq_true, if_false, hd]
    rw [if_pos hkw]
  exact ⟨hd, rfl, rfl, rfl, rfl, rfl, hp, by rw [hp]; rfl, by rw [hp]; rfl,
    by rw [hp]; rfl, by rw [hp]; rfl⟩

/-- Witness for C3: a concrete benign email (spam score 0, keyword
confidence 0.6) whose completion call raises. -/
theorem ai_failure_degradation_witness :
    (analyzeSpamLikelihood wCleanEmail).is_likely_spam = false
    ∧ (analyzeKeywords wCleanEmail).confidence_score > 3/10
    ∧ ((fun _ : EmailData => AIOutcome.raised) wCleanEmail = .raised
        ∨ (fun _ : EmailData => AIOutcome.raised) wCleanEmail = .notJson)
    ∧ (aiAnalyzeEmail ((fun _ : EmailData => AIOutcome.raised) wCleanEmail) = defaultAIResult
        ∧ defaultAIResult.is_hiring_related = some false
        ∧ defaultAIResult.confidence_score = 1/2
        ∧ defaultAIResult.category = .OTHER
        ∧ defaultAIResult.priority = some "medium"
        ∧ defaultAIResult.spam_likelihood = some "medium"
        ∧ analyzeEmail (fun _ => .raised) wCleanEmail
            = combineAnalyses (analyzeKeywords wCleanEmail) defaultAIResult
        ∧ (analyzeEmail (fun _ => .raised) wCleanEmail).category = .OTHER
        ∧ (analyzeEmail (fun _ => .raised) wCleanEmail).is_hiring_related = false
        ∧ (analyzeEmail (fun _ => .raised) wCleanEmail).confidence_score
            = (analyzeKeywords wCleanEmail).confidence_score * (3/10) + (1/2) * (7/10)
        ∧ (analyzeEmail (fun _ => .raised) wCleanEmail).analysis_method = "combined") := by
  have hph : (spamPhrases.filter (fun p =>
      pyIn p (pyLower wCleanEmail.subject ++ " " ++ pyLower wCleanEmail.bodyText))).length = 0 := by
    decide
  have hs : spamScore wCleanEmail = 0 := by
    simp +decide only [spamScore]
    rw [hph]
    norm_num
  have hspam : (analyzeSpamLikelihood wCleanEmail).is_likely_spam = false := by
    simp only [analyzeSpamLikelihood, hs]
    norm_num
  have h1 : (hiringKeywordsHigh.filter (fun k =>
      pyIn k (pyLower (wCleanEmail.subject ++ " " ++ wCleanEmail.bodyText)))).length = 1 := by
    decide
  have h2 : (hiringKeywordsMedium.filter (fun k =>
      pyIn k (pyLower (wCleanEmail.subject ++ " " ++ wCleanEmail.bodyText)))).length = 2 := by
    decide
  have h3 : (hiringKeywordsLow.filter (fun k =>
      pyIn k (pyLower (wCleanEmail.subject ++ " " ++ wCleanEmail.bodyText)))).length = 0 := by
    decide
  have hkw : (analyzeKeywords wCleanEmail).confidence_score > 3/10 := by
    simp +decide only [analyzeKeywords, h1, h2, h3]
    norm_num [min_def]
  exact ⟨hspam, hkw, Or.inl rfl,
    ai_failure_degradation (fun _ => .raised) wCleanEmail hspam hkw (Or.inl rfl)⟩

lemma isMostlyTrackingData_of_short (t : String) (h : (pyStrip t).length < 50) :
    isMostlyTrackingData t = true := by
  unfold isMostlyTrackingData
  rw [if_pos (Or.inr h)]

lemma striplen_of_not_tracking (t : String) (h : isMostlyTrackingData t = false) :
    50 ≤ (pyStrip t).length ∧ t ≠ "" := by
  constructor
  · by_contra hlt
    push_neg at hlt
    rw [isMostlyTrackingData_of_short t hlt] at h
    exact absurd h (by decide)
  · intro he
    subst he
    rw [isMostlyTrackingData_of_short "" (by decide)] at h
    exact absurd h (by decide)

/-- C10: the mostly-tracking classifier returns true for every text whose
trimmed length is below 50 characters — including the empty text and clean
prose with no tracking pattern — and consequently the detail-fetch
fallback replaces any such cleaned body by the provider snippet whenever
the snippet trims above 20 characters. -/
theorem short_body_snippet_fallback (t body snip : String)
    (ht : (pyStrip t).length < 50)
    (hb : (pyStrip body).length < 50)
    (hs : 20 < (pyStrip snip).length) :
    isMostlyTrackingData t = true
    ∧ isMostlyTrackingData "" = true
    ∧ snippetFallback body snip = snip := by
  refine ⟨isMostlyTrackingData_of_short t ht, by decide, ?_⟩
  have hsne : snip ≠ "" := by
    intro h
    rw [h] at hs
    exact absurd hs (by decide)
  unfold snippetFallback
  rw [if_pos (Or.inr (Or.inr (isMostlyTrackingData_of_short body hb))),
    if_pos ⟨hsne, hs⟩]

/-- Witness for C10 at a 2-character text, a 10-character body and a
29-character snippet. -/
theorem short_body_snippet_fallback_witness :
    (pyStrip "hi").length < 50
    ∧ (pyStrip "short body").length < 50
    ∧ 20 < (pyStrip "this is a long enough snippet").length
    ∧ (isMostlyTrackingData "hi" = true
        ∧ isMostlyTrackingData "" = true
        ∧ snippetFallback "short body" "this is a long enough snippet"
            = "this is a long enough snippet") :=
  ⟨by decide, by decide, by decide,
    short_body_snippet_fallback "hi" "short body" "this is a long enough snippet"
      (by decide) (by decide) (by decide)⟩

lemma foldl_candidateStep_spec (parts : List String) (b : String) :
    (parts.foldl candidateStep b = b
      ∨ (parts.foldl candidateStep b ∈ parts
          ∧ isMostlyTrackingData (parts.foldl candidateStep b) = false))
    ∧ (pyStrip b).length ≤ (pyStrip (parts.foldl candidateStep b)).length
    ∧ ∀ t ∈ parts, isMostlyTrackingData t = false →
        (pyStrip t).length ≤ (pyStrip (parts.foldl candidateStep b)).length := by
  induction parts generalizing b with
  | nil => simp
  | cons p rest ih =>
    simp only [List.foldl_cons]
    obtain ⟨ih1, ih2, ih3⟩ := ih (candidateStep b p)
    refine ⟨?_, ?_, ?_⟩
    · rcases ih1 with h | ⟨hmem, htr⟩
      · rw [h]
        unfold candidateStep
        split
        case isTrue hc => exact Or.inr ⟨List.mem_cons_self p rest, hc.2⟩
        case isFalse hc => exact Or.inl rfl
      · exact Or.inr ⟨List.mem_cons_of_mem p hmem, htr⟩
    · refine le_trans ?_ ih2
      unfold candidateStep
      split
      case isTrue hc => exact le_of_lt hc.1
      case isFalse hc => exact le_refl _
    · intro t htmem htr
      rcases List.mem_cons.mp htmem with rfl | hmem2
      · refine le_trans ?_ ih2
        unfold candidateStep
        split
        case isTrue hc => exact le_refl _
        case isFalse hc =>
          by_contra hgt
          push_neg at hgt
          exact hc ⟨hgt, htr⟩
      · exact ih3 t hmem2 htr

lemma foldl_candidateStep_all_tracking (parts : List String) (b : String)
    (h : ∀ t ∈ parts, isMostlyTrackingData t = true) :
    parts.foldl candidateStep b = b := by
  induction parts generalizing b with
  | nil => rfl
  | cons p rest ih =>
    have hp := h p (List.mem_cons_self p rest)
    simp only [List.foldl_cons]
    have hstep : candidateStep b p = b := by
      unfold candidateStep
      rw [if_neg]
      rintro ⟨-, htr⟩
      rw [hp] at htr
      exact absurd htr (by decide)
    rw [hstep]
    exact ih _ (fun t ht => h t (List.mem_cons_of_mem p ht))

/-- C8 (amended): among the kept candidates the normalizer selects a
non-tracking candidate of maximal trimmed length when one exists; when
every kept candidate is tracking-heavy it falls back to the FIRST
candidate (not the longest); the same rule is applied independently to the
HTML-derived candidates. -/
theorem body_candidate_selection (parts htmlParts : List String) (hne : parts ≠ []) :
    ((∃ t ∈ parts, isMostlyTrackingData t = false) →
        selectBodyText parts ∈ parts
        ∧ isMostlyTrackingData (selectBodyText parts) = false
        ∧ ∀ t ∈ parts, isMostlyTrackingData t = false →
            (pyStrip t).length ≤ (pyStrip (selectBodyText parts)).length)
    ∧ ((∀ t ∈ parts, isMostlyTrackingData t = true) →
        selectBodyText parts = parts.headD "")
    ∧ extractEmailBody parts htmlParts
        = (pyStrip (selectBodyText parts), pyStrip (selectBodyText htmlParts)) := by
  obtain ⟨p0, rest, rfl⟩ : ∃ p0 rest, parts = p0 :: rest := by
    cases parts with
    | nil => exact absurd rfl hne
    | cons p0 rest => exact ⟨p0, rest, rfl⟩
  refine ⟨?_, ?_, rfl⟩
  · rintro ⟨t0, ht0mem, ht0⟩
    obtain ⟨h1, -, h3⟩ := foldl_candidateStep_spec (p0 :: rest) ""
    have ht0len := (striplen_of_not_tracking t0 ht0).1
    have hrlen : 50 ≤ (pyStrip ((p0 :: rest).foldl candidateStep "")).length :=
      le_trans ht0len (h3 t0 ht0mem ht0)
    have hrne : (p0 :: rest).foldl candidateStep "" ≠ "" := by
      intro h
      rw [h] at hrlen
      exact absurd hrlen (by decide)
    have hsel : selectBodyText (p0 :: rest) = (p0 :: rest).foldl candidateStep "" := by
      show (if (p0 :: rest).foldl candidateStep "" ≠ "" then (p0 :: rest).foldl candidateStep ""
          else p0) = (p0 :: rest).foldl candidateStep ""
      rw [if_pos hrne]
    rcases h1 with h | ⟨hmem, htr⟩
    · exact absurd h hrne
    · rw [hsel]
      exact ⟨hmem, htr, fun t ht htf => h3 t ht htf⟩
  · intro hall
    have hfold := foldl_candidateStep_all_tracking (p0 :: rest) "" hall
    show (if (p0 :: rest).foldl candidateStep "" ≠ "" then (p0 :: rest).foldl candidateStep ""
        else p0) = (p0 :: rest).headD ""
    rw [hfold, if_neg (by simp)]
    rfl

/-- Witness for C8 at a candidate list with one clean 70-character prose
candidate and one tracking-heavy short candidate. -/
theorem body_candidate_selection_witness :
    (["hello world this is a perfectly ordinary message about nothing at all",
      "aaaaaaaaaaaaaaaaaaaaaaaaa"] ≠ ([] : List String))
    ∧ (((∃ t ∈ ["hello world this is a perfectly ordinary message about nothing at all",
          "aaaaaaaaaaaaaaaaaaaaaaaaa"], isMostlyTrackingData t = false) →
        selectBodyText ["hello world this is a perfectly ordinary message about nothing at all",
            "aaaaaaaaaaaaaaaaaaaaaaaaa"]
          ∈ ["hello world this is a perfectly ordinary message about nothing at all",
             "aaaaaaaaaaaaaaaaaaaaaaaaa"]
        ∧ isMostlyTrackingData (selectBodyText
            ["hello world this is a perfectly ordinary message about nothing at all",
             "aaaaaaaaaaaaaaaaaaaaaaaaa"]) = false
        ∧ ∀ t ∈ ["hello world this is a perfectly ordinary message about nothing at all",
            "aaaaaaaaaaaaaaaaaaaaaaaaa"], isMostlyTrackingData t = false →
            (pyStrip t).length ≤ (pyStrip (selectBodyText
              ["hello world this is a perfectly ordinary message about nothing at all",
               "aaaaaaaaaaaaaaaaaaaaaaaaa"])).length)
      ∧ ((∀ t ∈ ["hello world this is a perfectly ordinary message about nothing at all",
            "aaaaaaaaaaaaaaaaaaaaaaaaa"], isMostlyTrackingData t = true) →
          selectBodyText ["hello world this is a perfectly ordinary message about nothing at all",
              "aaaaaaaaaaaaaaaaaaaaaaaaa"]
            = (["hello world this is a perfectly ordinary message about nothing at all",
                "aaaaaaaaaaaaaaaaaaaaaaaaa"] : List String).headD "")
      ∧ extractEmailBody ["hello world this is a perfectly ordinary message about nothing at all",
            "aaaaaaaaaaaaaaaaaaaaaaaaa"] []
          = (pyStrip (selectBodyText
              ["hello world this is a perfectly ordinary message about nothing at all",
               "aaaaaaaaaaaaaaaaaaaaaaaaa"]),
             pyStrip (selectBodyText ([] : List String)))) :=
  ⟨by decide,
    body_candidate_selection
      ["hello world this is a perfectly ordinary message about nothing at all",
       "aaaaaaaaaaaaaaaaaaaaaaaaa"] [] (by decide)⟩

/-- Counterexample for C8 as stated: two kept candidates of trimmed
lengths 25 and 30, both tracking-heavy; the source falls back to the
first (shorter) candidate, not the single longest one. -/
theorem body_candidate_selection_counterexample :
    isMostlyTrackingData "aaaaaaaaaaaaaaaaaaaaaaaaa" = true
    ∧ isMostlyTrackingData "bbbbbbbbbbbbbbbbbbbbbbbbbbbbbb" = true
    ∧ (pyStrip "aaaaaaaaaaaaaaaaaaaaaaaaa").length
        < (pyStrip "bbbbbbbbbbbbbbbbbbbbbbbbbbbbbb").length
    ∧ selectBodyText ["aaaaaaaaaaaaaaaaaaaaaaaaa", "bbbbbbbbbbbbbbbbbbbbbbbbbbbbbb"]
        = "aaaaaaaaaaaaaaaaaaaaaaaaa"
    ∧ "aaaaaaaaaaaaaaaaaaaaaaaaa" ≠ "bbbbbbbbbbbbbbbbbbbbbbbbbbbbbb" := by
  decide

/-! Sync-orchestrator lemmas. -/

lemma buildRow_eq_some (now : Nat) (g : EmailData) (a : AnalysisResult) (row : PersistedEmail)
    (h : buildRow now g a = some row) : row.id = g.id ∧ row.status = .UNREAD := by
  unfold buildRow at h
  cases hp : emailPriorityOfName (pyUpper (a.priority.getD "medium")) with
  | none => rw [hp] at h; exact absurd h (by simp)
  | some prio =>
    rw [hp, Option.map_some'] at h
    cases h
    exact ⟨rfl, rfl⟩

lemma buildRow_none_iff (now : Nat) (g : EmailData) (a : AnalysisResult) :
    buildRow now g a = none
      ↔ emailPriorityOfName (pyUpper (a.priority.getD "medium")) = none := by
  simp [buildRow, Option.map_eq_none']

lemma syncStep_seen (classify : EmailData → Except Unit AnalysisResult) (now : Nat)
    (s : SyncState) (g : EmailData) (h : (dbLookup s.store g.id).isSome = true) :
    syncStep classify false now s g = s := by
  unfold syncStep
  split
  · rfl
  next heq => rw [heq] at h; exact absurd h (by simp)

lemma syncStep_stuck (classify : EmailData → Except Unit AnalysisResult) (force : Bool)
    (now : Nat) (s : SyncState) (g : EmailData) (h : recordStuck classify g) :
    syncStep classify force now s g = s := by
  have hbuild : ∀ a, classify g = .ok a → buildRow now g a = none := by
    intro a ha
    rcases h with herr | hpri
    · rw [herr] at ha; exact absurd ha (by simp)
    · exact (buildRow_none_iff now g a).mpr (hpri a ha)
  unfold syncStep
  split
  · split
    · rfl
    · split
      · rfl
      next a heqc =>
        split
        · rfl
        next row heqb =>
          rw [hbuild a heqc] at heqb
          exact absurd heqb (by simp)
  · split
    · rfl
    next a heqc =>
      split
      · rfl
      next row heqb =>
        rw [hbuild a heqc] at heqb
        exact absurd heqb (by simp)

lemma syncStep_insert (classify : EmailData → Except Unit AnalysisResult) (force : Bool)
    (now : Nat) (s : SyncState) (g : EmailData) (a : AnalysisResult) (row : PersistedEmail)
    (hl : dbLookup s.store g.id = none) (hc : classify g = .ok a)
    (hb : buildRow now g a = some row) :
    syncStep classify force now s g
      = { store := dbInsert s.store row, synced := s.synced + 1, updated := s.updated } := by
  unfold syncStep
  split
  next r heq => rw [heq] at hl; exact absurd hl (by simp)
  · split
    next heqc => rw [heqc] at hc; exact absurd hc (by simp)
    next a2 heqc =>
      have ha : a2 = a := by
        rw [heqc] at hc
        exact (Except.ok.inj hc)
      subst ha
      split
      next heqb => rw [heqb] at hb; exact absurd hb (by simp)
      next row2 heqb =>
        rw [heqb] at hb
        rw [Option.some.inj hb]

lemma syncStep_update (classify : EmailData → Except Unit AnalysisResult) (now : Nat)
    (s : SyncState) (g : EmailData) (a : AnalysisResult) (row r : PersistedEmail)
    (hl : dbLookup s.store g.id = some r) (hc : classify g = .ok a)
    (hb : buildRow now g a = some row) :
    syncStep classify true now s g
      = { store := dbUpdateFirst s.store g.id row, synced := s.synced,
          updated := s.updated + 1 } := by
  unfold syncStep
  split
  · split
    next hforce => exact absurd hforce (by simp)
    · split
      next heqc => rw [heqc] at hc; exact absurd hc (by simp)
      next a2 heqc =>
        have ha : a2 = a := by
          rw [heqc] at hc
          exact (Except.ok.inj hc)
        subst ha
        split
        next heqb => rw [heqb] at hb; exact absurd hb (by simp)
        next row2 heqb =>
          rw [heqb] at hb
          rw [Option.some.inj hb]
  next heq => rw [heq] at hl; exact absurd hl (by simp)

lemma dbLookup_append_of_isSome (st : Store) (row : PersistedEmail) (i : String)
    (h : (dbLookup st i).isSome = true) : dbLookup (st ++ [row]) i = dbLookup st i := by
  induction st with
  | nil => simp [dbLookup] at h
  | cons r rest ih =>
    by_cases hr : r.id = i
    · simp [dbLookup, List.find?_cons, hr]
    · have h' : (dbLookup rest i).isSome = true := by
        simpa [dbLookup, List.find?_cons, hr] using h
      simpa [dbLookup, List.find?_cons, hr] using ih h'

lemma dbLookup_append_single (st : Store) (row : PersistedEmail) (i : String)
    (hrow : row.id = i) (h : dbLookup st i = none) :
    dbLookup (st ++ [row]) i = some row := by
  induction st with
  | nil => simp [dbLookup, List.find?_cons, hrow]
  | cons r rest ih =>
    by_cases hr : r.id = i
    · simp [dbLookup, List.find?_cons, hr] at h
    · have h' : dbLookup rest i = none := by
        simpa [dbLookup, List.find?_cons, hr] using h
      simpa [dbLookup, List.find?_cons, hr] using ih h'

lemma dbLookup_updateFirst_isSome (st : Store) (i : String) (row : PersistedEmail)
    (hrow : row.id = i) (j : String) (h : (dbLookup st j).isSome = true) :
    (dbLookup (dbUpdateFirst st i row) j).isSome = true := by
  induction st with
  | nil => simp [dbLookup] at h
  | cons r rest ih =>
    unfold dbUpdateFirst
    by_cases hri : r.id = i
    · rw [if_pos hri]
      by_cases hj : r.id = j
      · simp [dbLookup, List.find?_cons, hrow, hri ▸ hj]
      · by_cases hrj : row.id = j
        · simp [dbLookup, List.find?_cons, hrj]
        · have h' : (dbLookup rest j).isSome = true := by
            simpa [dbLookup, List.find?_cons, hj] using h
          simpa [dbLookup, List.find?_cons, hrj] using h'
    · rw [if_neg hri]
      by_cases hj : r.id = j
      · simp [dbLookup, List.find?_cons, hj]
      · have h' : (dbLookup rest j).isSome = true := by
          simpa [dbLookup, List.find?_cons, hj] using h
        simpa [dbLookup, List.find?_cons, hj] using ih h'

lemma dbLookup_updateFirst_self (st : Store) (i : String) (row : PersistedEmail)
    (hrow : row.id = i) (h : (dbLookup st i).isSome = true) :
    dbLookup (dbUpdateFirst st i row) i = some row := by
  induction st with
  | nil => simp [dbLookup] at h
  | cons r rest ih =>
    unfold dbUpdateFirst
    by_cases hri : r.id = i
    · rw [if_pos hri]
      simp [dbLookup, List.find?_cons, hrow]
    · rw [if_neg hri]
      have h' : (dbLookup rest i).isSome = true := by
        simpa [dbLookup, List.find?_cons, hri] using h
      simpa [dbLookup, List.find?_cons, hri] using ih h'

lemma dbLookup_isSome_syncStep (classify : EmailData → Except Unit AnalysisResult)
    (force : Bool) (now : Nat) (s : SyncState) (g : EmailData) (i : String)
    (h : (dbLookup s.store i).isSome = true) :
    (dbLookup (syncStep classify force now s g).store i).isSome = true := by
  unfold syncStep
  split
  · split
    · exact h
    · split
      · exact h
      next a heqc =>
        split
        · exact h
        next row heqb =>
          exact dbLookup_updateFirst_isSome s.store g.id row
            (buildRow_eq_some now g a row heqb).1 i h
  · split
    · exact h
    next a heqc =>
      split
      · exact h
      next row heqb =>
        show (dbLookup (s.store ++ [row]) i).isSome = true
        rw [dbLookup_append_of_isSome s.store row i h]
        exact h

lemma recordSettled_syncStep (classify : EmailData → Except Unit AnalysisResult)
    (force : Bool) (now : Nat) (s : SyncState) (g' g : EmailData)
    (h : recordSettled classify s.store g) :
    recordSettled classify (syncStep classify force now s g').store g := by
  rcases h with hsome | hstuck
  · exact Or.inl (dbLookup_isSome_syncStep classify force now s g' g.id hsome)
  · exact Or.inr hstuck

lemma recordSettled_foldl (classify : EmailData → Except Unit AnalysisResult)
    (force : Bool) (now : Nat) (batch : List EmailData) :
    ∀ (s : SyncState) (g : EmailData), recordSettled classify s.store g →
    recordSettled classify (batch.foldl (syncStep classify force now) s).store g := by
  induction batch with
  | nil => intro s g h; exact h
  | cons p rest ih =>
    intro s g h
    rw [List.foldl_cons]
    exact ih _ g (recordSettled_syncStep classify force now s p g h)

lemma syncStep_settles_self (classify : EmailData → Except Unit AnalysisResult)
    (now : Nat) (s : SyncState) (g : EmailData) :
    recordSettled classify (syncStep classify false now s g).store g := by
  rcases hl : dbLookup s.store g.id with _ | r
  · rcases hc : classify g with e | a
    · cases e
      exact Or.inr (Or.inl hc)
    · rcases hb : buildRow now g a with _ | row
      · refine Or.inr (Or.inr ?_)
        intro a2 ha2
        have ha : a2 = a := by rw [hc] at ha2; exact (Except.ok.inj ha2).symm
        subst ha
        exact (buildRow_none_iff now g a2).mp hb
      · rw [syncStep_insert classify false now s g a row hl hc hb]
        refine Or.inl ?_
        show (dbLookup (s.store ++ [row]) g.id).isSome = true
        rw [dbLookup_append_single s.store row g.id (buildRow_eq_some now g a row hb).1 hl]
        rfl
  · rw [syncStep_seen classify now s g (by rw [hl]; rfl)]
    exact Or.inl (by rw [hl]; rfl)

lemma sync_settles (classify : EmailData → Except Unit AnalysisResult) (now : Nat)
    (batch : List EmailData) :
    ∀ (s : SyncState) (g : EmailData), g ∈ batch →
    recordSettled classify (batch.foldl (syncStep classify false now) s).store g := by
  induction batch with
  | nil => intro s g h; exact absurd h (List.not_mem_nil g)
  | cons p rest ih =>
    intro s g hg
    rw [List.foldl_cons]
    rcases List.mem_cons.mp hg with rfl | hmem
    · exact recordSettled_foldl classify false now rest _ g
        (syncStep_settles_self classify now s g)
    · exact ih _ g hmem

lemma sync_noop_of_settled (classify : EmailData → Except Unit AnalysisResult) (now : Nat)
    (batch : List EmailData) :
    ∀ (s : SyncState), (∀ g ∈ batch, recordSettled classify s.store g) →
    batch.foldl (syncStep classify false now) s = s := by
  induction batch with
  | nil => intro s _; rfl
  | cons p rest ih =>
    intro s h
    have hp := h p (List.mem_cons_self p rest)
    have hstep : syncStep classify false now s p = s := by
      rcases hp with hsome | hstuck
      · exact syncStep_seen classify now s p hsome
      · exact syncStep_stuck classify false now s p hstuck
    rw [List.foldl_cons, hstep]
    exact ih s (fun g hg => h g (List.mem_cons_of_mem p hg))

/-- C1: with `force_refresh = false` a record whose external id is already
stored is skipped — the state is unchanged and the step is independent of
the classifier — and a second sync run over the same batch is a no-op: it
leaves the store unchanged and reports `synced_count = 0` and
`updated_count = 0`. -/
theorem sync_idempotent (classify classify2 : EmailData → Except Unit AnalysisResult)
    (now1 now2 now3 : Nat) (store : Store) (batch : List EmailData)
    (s : SyncState) (g : EmailData)
    (hseen : (dbLookup s.store g.id).isSome = true) :
    (syncStep classify false now1 s g = s
      ∧ syncStep classify false now1 s g = syncStep classify2 false now2 s g)
    ∧ (syncEmails classify false now3 (syncEmails classify false now1 store batch).store batch
        = { store := (syncEmails classify false now1 store batch).store,
            synced := 0, updated := 0 }) := by
  refine ⟨⟨syncStep_seen classify now1 s g hseen, ?_⟩, ?_⟩
  · rw [syncStep_seen classify now1 s g hseen, syncStep_seen classify2 now2 s g hseen]
  · have hsettled : ∀ g' ∈ batch,
        recordSettled classify (syncEmails classify false now1 store batch).store g' :=
      fun g' hg' => sync_settles classify now1 batch
        { store := store, synced := 0, updated := 0 } g' hg'
    exact sync_noop_of_settled classify now3 batch
      { store := (syncEmails classify false now1 store batch).store, synced := 0, updated := 0 }
      hsettled

/-- Witness for C1: a store already holding the row with id `m1`, the same
provider record in the batch, and two different classifier behaviours. -/
theorem sync_idempotent_witness :
    (dbLookup ({ store := [wReadRow], synced := 0, updated := 0 } : SyncState).store
        wRawM1.id).isSome = true
    ∧ ((syncStep wConstClassify false 1 { store := [wReadRow], synced := 0, updated := 0 } wRawM1
          = { store := [wReadRow], synced := 0, updated := 0 }
        ∧ syncStep wConstClassify false 1 { store := [wReadRow], synced := 0, updated := 0 } wRawM1
          = syncStep wFailClassify false 2 { store := [wReadRow], synced := 0, updated := 0 } wRawM1)
      ∧ syncEmails wConstClassify false 3
            (syncEmails wConstClassify false 1 [] [wRawM1]).store [wRawM1]
          = { store := (syncEmails wConstClassify false 1 [] [wRawM1]).store,
              synced := 0, updated := 0 }) :=
  ⟨rfl, sync_idempotent wConstClassify wFailClassify 1 2 3 [] [wRawM1]
    { store := [wReadRow], synced := 0, updated := 0 } wRawM1 rfl⟩

/-- C4: a record whose per-record processing fails (classification raises,
or the field construction raises on the priority name) is skipped with the
state unchanged, and the batch result is exactly that of the batch without
the failing record — the failure never aborts the batch and the sync still
returns counts rather than an error. -/
theorem per_record_failure_isolation (classify : EmailData → Except Unit AnalysisResult)
    (force : Bool) (now : Nat) (store : Store) (pre post : List EmailData) (g : EmailData)
    (h : recordStuck classify g) :
    (∀ s : SyncState, syncStep classify force now s g = s)
    ∧ syncEmails classify force now store (pre ++ g :: post)
        = syncEmails classify force now store (pre ++ post) := by
  have hstep : ∀ s : SyncState, syncStep classify force now s g = s :=
    fun s => syncStep_stuck classify force now s g h
  refine ⟨hstep, ?_⟩
  unfold syncEmails
  rw [List.foldl_append, List.foldl_append, List.foldl_cons, hstep]

/-- Witness for C4: a classifier that raises exactly on the record `bad`;
the batch `[bad, m1]` yields the same result as `[m1]`. -/
theorem per_record_failure_isolation_witness :
    recordStuck wMixedClassify wBadRaw
    ∧ ((∀ s : SyncState, syncStep wMixedClassify false 4 s wBadRaw = s)
      ∧ syncEmails wMixedClassify false 4 [] ([] ++ wBadRaw :: [wRawM1])
          = syncEmails wMixedClassify false 4 [] ([] ++ [wRawM1])) :=
  ⟨Or.inl rfl,
    per_record_failure_isolation wMixedClassify false 4 [] [] [wRawM1] wBadRaw (Or.inl rfl)⟩

lemma dbLookup_preserved_syncStep (classify : EmailData → Except Unit AnalysisResult)
    (now : Nat) (s : SyncState) (g : EmailData) (i : String)
    (h : (dbLookup s.store i).isSome = true) :
    dbLookup (syncStep classify false now s g).store i = dbLookup s.store i := by
  unfold syncStep
  split
  · split
    · rfl
    next hforce => exact absurd rfl hforce
  · split
    · rfl
    next a heqc =>
      split
      · rfl
      next row heqb =>
        show dbLookup (s.store ++ [row]) i = dbLookup s.store i
        exact dbLookup_append_of_isSome s.store row i h

lemma dbLookup_preserved_foldl (classify : EmailData → Except Unit AnalysisResult)
    (now : Nat) (batch : List EmailData) :
    ∀ (s : SyncState) (i : String), (dbLookup s.store i).isSome = true →
    dbLookup ((batch.foldl (syncStep classify false now) s)).store i = dbLookup s.store i := by
  induction batch with
  | nil => intro s i _; rfl
  | cons p rest ih =>
    intro s i h
    have hstep := dbLookup_preserved_syncStep classify now s p i h
    have hsome2 : (dbLookup (syncStep classify false now s p).store i).isSome = true := by
      rw [hstep]; exact h
    rw [List.foldl_cons, ih _ i hsome2, hstep]

/-- C9 (amended): with `force_refresh = false` the sync pass leaves every
already-stored record — its status included — exactly as it was; with
`force_refresh = true` an existing record is rewritten with the freshly
built field set, whose status is always `UNREAD`, so the status field is
NOT force-independent. -/
theorem sync_status_frame (classify : EmailData → Except Unit AnalysisResult)
    (now : Nat) (store : Store) (batch : List EmailData) (i : String)
    (s : SyncState) (g : EmailData) (a : AnalysisResult) (row r : PersistedEmail)
    (hi : (dbLookup store i).isSome = true)
    (hfound : dbLookup s.store g.id = some r)
    (hc : classify g = .ok a)
    (hb : buildRow now g a = some row) :
    dbLookup (syncEmails classify false now store batch).store i = dbLookup store i
    ∧ dbLookup (syncStep classify true now s g).store g.id = some row
    ∧ row.status = .UNREAD := by
  refine ⟨?_, ?_, (buildRow_eq_some now g a row hb).2⟩
  · exact dbLookup_preserved_foldl classify now batch
      { store := store, synced := 0, updated := 0 } i hi
  · rw [syncStep_update classify now s g a row r hfound hc hb]
    exact dbLookup_updateFirst_self s.store g.id row
      (buildRow_eq_some now g a row hb).1 (by rw [hfound]; rfl)

/-- Witness for C9 at the concrete store `[wReadRow]` and record `wRawM1`. -/
theorem sync_status_frame_witness :
    (dbLookup [wReadRow] "m1").isSome = true
    ∧ dbLookup ({ store := [wReadRow], synced := 0, updated := 0 } : SyncState).store wRawM1.id
        = some wReadRow
    ∧ wConstClassify wRawM1 = .ok wConstAnalysis
    ∧ buildRow 7 wRawM1 wConstAnalysis = some wUpdatedRow
    ∧ (dbLookup (syncEmails wConstClassify false 7 [wReadRow] [wRawM1]).store "m1"
          = dbLookup [wReadRow] "m1"
      ∧ dbLookup (syncStep wConstClassify true 7
            { store := [wReadRow], synced := 0, updated := 0 } wRawM1).store wRawM1.id
          = some wUpdatedRow
      ∧ wUpdatedRow.status = .UNREAD) :=
  ⟨rfl, rfl, rfl, rfl,
    sync_status_frame wConstClassify 7 [wReadRow] [wRawM1] "m1"
      { store := [wReadRow], synced := 0, updated := 0 } wRawM1 wConstAnalysis
      wUpdatedRow wReadRow rfl rfl rfl rfl⟩

/-- Counterexample for C9 as stated: a stored row with user-set status
`READ`; a forced re-sync of the same external id rewrites the row and
resets its status to `UNREAD`, so sync does change the status of an
existing record when `force_refresh = true`. -/
theorem sync_status_counterexample :
    wReadRow.status = .READ
    ∧ (dbLookup [wReadRow] wRawM1.id).isSome = true
    ∧ ((syncEmails wConstClassify true 7 [wReadRow] [wRawM1]).store.map
        (fun r => r.status)) = [.UNREAD]
    ∧ EmailStatus.READ ≠ EmailStatus.UNREAD := by
  refine ⟨rfl, rfl, ?_, by decide⟩
  rfl

end CareerFlow
